/-
Verification development for the webllm-chat client.

Shallow embedding of the streaming backends (`useWebLLM.generate`,
`generateRemoteResponse`) and of the benchmark orchestrator
(`useBenchmark`: `runBenchmarkSuite`, `runComparisonBenchmark`,
`clearResults`, `downloadCSV`) together with the engine lifecycle
(`initEngine` / `resetEngine` / `clearModelCache`).

Conventions of the embedding:
* JavaScript numbers (performance.now() timestamps, durations, rates) are
  modelled as exact rationals `ℚ`; token counts as `ℕ`.
* A `throw` is modelled as `Except.error msg` carrying the message string;
  `x || null` on strings is modelled by `strOrNull` (empty string ↦ `none`),
  `x ?? d` by `Option.getD`.
* React `useState` cells are gathered into explicit state structures
  (`BenchState`, `WebLLMState`); each `setX(v)` call is a functional update
  of the corresponding field, applied in program order.
* The incremental token stream is modelled as the list of already-decoded
  events the `for await` / reader loop processes: for the local engine a
  `LocalChunk` (delta content, optional terminal usage record, arrival time),
  for the remote SSE stream a `RemoteFragment` (extracted delta content,
  arrival time).  The arrival time is the `performance.now()` value observed
  while the event is being processed.
-/
import Mathlib

namespace WebLLMChat

/-- Message roles (src/client/src/types.ts). -/
inductive Role
  | user
  | assistant
  | system
deriving DecidableEq, Repr

/-- A chat message as handed to a backend `generate` call.  The source
`Message` also carries a `timestamp : Date` and optional display `metrics`;
neither is read by any operation embedded here, both backends forward only
`role` and `content`. -/
structure Message where
  id : String
  role : Role
  content : String
deriving DecidableEq, Repr

/-- The `role`/`content` pair actually placed in the request payload. -/
structure ApiMessage where
  role : Role
  content : String
deriving DecidableEq, Repr

/-- The metrics record emitted once per completed generation
(src/client/src/types.ts `InferenceMetrics`). -/
structure InferenceMetrics where
  ttftMs : ℚ
  totalTimeMs : ℚ
  tokensPerSec : ℚ
  tokenCount : ℕ
deriving DecidableEq, Repr

/-! ## Local backend: `useWebLLM.generate` (src/client/src/hooks/useWebLLM.ts) -/

/-- The fixed system preamble the local backend prepends (useWebLLM.ts:128). -/
def localSystemPreamble : String :=
  "You are a helpful, respectful and honest assistant."

/-- Message sequence sent by the local backend (useWebLLM.ts:120-131): the
caller-supplied history is mapped to `role`/`content` pairs and the fixed
system preamble is prepended.  Note: no filtering of the history happens
here. -/
def localBuildMessages (conversationHistory : List Message) : List ApiMessage :=
  ⟨Role.system, localSystemPreamble⟩ ::
    conversationHistory.map (fun m => ⟨m.role, m.content⟩)

/-- The `usage` object that may ride on the terminal stream chunk. -/
structure UsageInfo where
  prompt_tokens : Option ℕ
  completion_tokens : Option ℕ
deriving DecidableEq, Repr

/-- One decoded chunk of the local engine stream, as seen by the
`for await (const chunk of stream)` loop (useWebLLM.ts:143-161).
`content` is `chunk.choices?.[0]?.delta?.content ?? ""`. -/
structure LocalChunk where
  time : ℚ
  content : String
  usage : Option UsageInfo
deriving DecidableEq, Repr

/-- `firstContentTime`: the time of the first chunk with non-empty delta
content (useWebLLM.ts:147-149). -/
def localFirstContentTime (chunks : List LocalChunk) : Option ℚ :=
  (chunks.find? (fun c => decide (0 < c.content.length))).map (·.time)

/-- The `usage` variable after the loop: overwritten by every chunk that
carries a usage object, hence the last one present (useWebLLM.ts:157-160). -/
def localLastUsage (chunks : List LocalChunk) : Option UsageInfo :=
  chunks.foldl (fun acc c => match c.usage with | some u => some u | none => acc) none

/-- `completionTokens = usage?.completion_tokens ?? 0` (useWebLLM.ts:167). -/
def localCompletionTokens (chunks : List LocalChunk) : ℕ :=
  ((localLastUsage chunks).bind (·.completion_tokens)).getD 0

/-- `fullText` accumulated by the loop (useWebLLM.ts:151-154): deltas are
appended when non-empty (appending the empty delta is skipped, which is
textually faithful and extensionally the plain concatenation). -/
def localFullText (chunks : List LocalChunk) : String :=
  chunks.foldl (fun acc c => if 0 < c.content.length then acc ++ c.content else acc) ""

/-- The `tokensPerSec` block of the local backend (useWebLLM.ts:169-178):
steady decode throughput when a first-content time exists and the usage count
is at least 2 — with the decode interval clamped below by 1 ms
(`Math.max(1, endTime - firstContentTime)`) — otherwise the end-to-end
fallback guarded by `completionTokens > 0 && totalTimeMs > 0`, else 0. -/
def localTokensPerSec (firstContentTime : Option ℚ) (endTime totalTimeMs : ℚ)
    (completionTokens : ℕ) : ℚ :=
  match firstContentTime with
  | some tFirst =>
    if 2 ≤ completionTokens then
      ((completionTokens : ℚ) - 1) / (max 1 (endTime - tFirst) / 1000)
    else if 0 < completionTokens ∧ 0 < totalTimeMs then
      (completionTokens : ℚ) / (totalTimeMs / 1000)
    else 0
  | none =>
    if 0 < completionTokens ∧ 0 < totalTimeMs then
      (completionTokens : ℚ) / (totalTimeMs / 1000)
    else 0

/-- The metrics computation after the local stream is exhausted
(useWebLLM.ts:163-187): `startTime`/`endTime` are the `performance.now()`
values captured before and after the loop. -/
def localComputeMetrics (startTime endTime : ℚ) (chunks : List LocalChunk) :
    InferenceMetrics :=
  let firstContentTime := localFirstContentTime chunks
  let ttftMs := match firstContentTime with
    | some t => t - startTime
    | none => 0
  let totalTimeMs := endTime - startTime
  let completionTokens := localCompletionTokens chunks
  { ttftMs := ttftMs, totalTimeMs := totalTimeMs,
    tokensPerSec := localTokensPerSec firstContentTime endTime totalTimeMs completionTokens,
    tokenCount := completionTokens }

/-! ## Remote backend: `generateRemoteResponse` (src/client/src/services/remoteApi.ts) -/

/-- The fixed system preamble the remote backend prepends (remoteApi.ts:117-120). -/
def remoteSystemPreamble : String :=
  "You are a helpful AI assistant. Answer questions directly and accurately. Provide clear, concise responses that directly address what the user is asking. Do not include labels like \x27user:\x27 or \x27assistant:\x27 in your reply."

/-- Message sequence sent by the remote backend (remoteApi.ts:104-122): the
history is first filtered to drop system-role messages, then mapped to
`role`/`content` pairs, and the fixed system preamble is prepended. -/
def remoteBuildMessages (conversationHistory : List Message) : List ApiMessage :=
  ⟨Role.system, remoteSystemPreamble⟩ ::
    (conversationHistory.filter (fun m => decide (m.role ≠ Role.system))).map
      (fun m => ⟨m.role, m.content⟩)

/-- One processed `data:` line of the remote SSE stream (remoteApi.ts:157-177).
`content` is `json.choices?.[0]?.delta?.content || ""`; keep-alives, the
`[DONE]` sentinel, unparseable JSON and contentless deltas all contribute the
empty string (they are skipped by the `if (content)` test). -/
structure RemoteFragment where
  time : ℚ
  content : String
deriving DecidableEq, Repr

/-- `firstTokenTime`: set when the first non-empty content is seen
(remoteApi.ts:166-168). -/
def remoteFirstTokenTime (frags : List RemoteFragment) : Option ℚ :=
  (frags.find? (fun f => decide (0 < f.content.length))).map (·.time)

/-- `tokenCount` counts the fragments with non-empty content
(remoteApi.ts:169). -/
def remoteTokenCount (frags : List RemoteFragment) : ℕ :=
  (frags.filter (fun f => decide (0 < f.content.length))).length

/-- `fullText` accumulated by the reader loop (remoteApi.ts:170). -/
def remoteFullText (frags : List RemoteFragment) : String :=
  frags.foldl (fun acc f => if 0 < f.content.length then acc ++ f.content else acc) ""

/-- The metrics computation after the remote stream ends (remoteApi.ts:180-192).
`const ttft = firstTokenTime ? firstTokenTime - startTime : 0` uses JS
truthiness, so a captured time of exactly `0` also yields `ttft = 0`; the
inner `if t = 0` mirrors that. -/
def remoteComputeMetrics (startTime endTime : ℚ) (frags : List RemoteFragment) :
    InferenceMetrics :=
  let firstTokenTime := remoteFirstTokenTime frags
  let tokenCount := remoteTokenCount frags
  let ttft := match firstTokenTime with
    | some t => if t = 0 then 0 else t - startTime
    | none => 0
  let totalTime := endTime - startTime
  let tps := if 0 < totalTime then (tokenCount : ℚ) / (totalTime / 1000) else 0
  { ttftMs := ttft, totalTimeMs := totalTime, tokensPerSec := tps,
    tokenCount := tokenCount }

/-! ## Benchmark orchestrator: `useBenchmark` (src/client/src/hooks/useBenchmark.ts) -/

/-- The two inference modes (`'local' | 'remote'` in types.ts; `local` is a
Lean keyword, hence the suffixed constructor names). -/
inductive InferenceMode
  | localMode
  | remoteMode
deriving DecidableEq, Repr

/-- Prompt categories (useBenchmark.ts:125). -/
inductive PromptType
  | short
  | medium
  | long
  | reasoning
deriving DecidableEq, Repr

/-- A corpus entry of `TEST_PROMPTS`. -/
structure BenchmarkPrompt where
  id : String
  type : PromptType
  text : String
deriving DecidableEq, Repr

/-- The fixed benchmark corpus (useBenchmark.ts:145-237), 20 prompts. -/
def TEST_PROMPTS : List BenchmarkPrompt :=
  [ ⟨"short_1", .short, "What is the capital of France?"⟩,
    ⟨"short_2", .short, "Who wrote Romeo and Juliet?"⟩,
    ⟨"short_3", .short, "What is the largest planet in our solar system?"⟩,
    ⟨"short_4", .short, "In what year did World War II end?"⟩,
    ⟨"short_5", .short, "What is the chemical symbol for gold?"⟩,
    ⟨"medium_1", .medium, "Explain how photosynthesis works in simple terms."⟩,
    ⟨"medium_2", .medium, "What is the difference between weather and climate?"⟩,
    ⟨"medium_3", .medium, "How does a refrigerator keep food cold?"⟩,
    ⟨"medium_4", .medium, "Explain what happens during an eclipse."⟩,
    ⟨"medium_5", .medium, "What causes the seasons on Earth?"⟩,
    ⟨"reasoning_1", .reasoning, "If I have 3 apples and eat one, then buy two more, how many do I have?"⟩,
    ⟨"reasoning_2", .reasoning, "A train travels 60 miles in 2 hours. What is its average speed?"⟩,
    ⟨"reasoning_3", .reasoning, "If today is Monday, what day will it be in 10 days?"⟩,
    ⟨"reasoning_4", .reasoning, "Sarah has 15 books. She gives away 4 and receives 6 more. How many books does she have now?"⟩,
    ⟨"reasoning_5", .reasoning, "If a rectangle has a length of 8 and width of 5, what is its area?"⟩,
    ⟨"long_1", .long, "Describe the process of how a computer processes information from input to output."⟩,
    ⟨"long_2", .long, "Explain the water cycle and why it is important for life on Earth."⟩,
    ⟨"long_3", .long, "What are the main differences between renewable and non-renewable energy sources?"⟩,
    ⟨"long_4", .long, "Describe how the human immune system protects the body from disease."⟩,
    ⟨"long_5", .long, "Explain the concept of gravity and how it affects objects on Earth and in space."⟩ ]

/-- A persisted benchmark row (useBenchmark.ts:123-132).  `timestamp` is the
wall-clock ISO string `new Date().toISOString()`; the clock is outside the
embedding, so all rows carry the opaque constant `wallClockTimestamp`. -/
structure BenchmarkResult where
  promptId : String
  promptType : PromptType
  promptText : String
  mode : InferenceMode
  metrics : InferenceMetrics
  response : String
  timestamp : String
  modelName : String
deriving DecidableEq, Repr

/-- Opaque stand-in for `new Date().toISOString()`; no claim depends on it. -/
def wallClockTimestamp : String := ""

/-- One row of the comparison matrix (useBenchmark.ts:134-143).  The source
field `local` is a Lean keyword and is embedded as `localMetrics`; the
optional `localError?`/`remoteError?` fields are `none` when absent. -/
structure ComparisonResult where
  promptId : String
  promptText : String
  localMetrics : Option InferenceMetrics
  localResponse : Option String
  remote : Option InferenceMetrics
  remoteResponse : Option String
  localError : Option String
  remoteError : Option String
deriving DecidableEq, Repr

/-- The `useState` cells of `useBenchmark` (useBenchmark.ts:240-248).
`hasHydrated` is omitted: it is written once by the mount effect and read by
nothing embedded here. -/
structure BenchState where
  results : List BenchmarkResult
  comparisonResults : List ComparisonResult
  isRunning : Bool
  isComparing : Bool
  currentPromptIndex : ℕ
  currentMode : InferenceMode
deriving DecidableEq, Repr

/-- What one `generateFn(prompt, onUpdate, onMetrics)` call delivers when it
returns normally: the resolved response string plus the value (if any) the
`onMetrics` callback stored into the orchestrator's `captured`/`localMetrics`
/`remoteMetrics` variable.  Both repository backends invoke `onMetrics`
exactly once, just before returning, so a real successful call always has
`metrics = some m`; the orchestrator nevertheless guards with
`if (capturedMetrics)`, which the `Option` preserves. -/
structure GenSuccess where
  response : String
  metrics : Option InferenceMetrics
deriving DecidableEq, Repr

/-- Outcome of awaiting a `generateFn` call: `error msg` models a throw
(already rendered through `e instanceof Error ? e.message : "Unknown error"`
where the orchestrator does so).  A throwing call never commits metrics:
both backends emit metrics only at normal completion. -/
abbrev GenOutcome := Except String GenSuccess

/-- `s || null` on a response string (useBenchmark.ts:388,438): the empty
string is the only falsy string, so it maps to `null`. -/
def strOrNull (s : String) : Option String :=
  if s = "" then none else some s

/-- Build the `BenchmarkResult` row pushed by the runs
(useBenchmark.ts:301-312, 394-405, 444-455). -/
def mkBenchmarkResult (p : BenchmarkPrompt) (mode : InferenceMode)
    (m : InferenceMetrics) (response : String) : BenchmarkResult :=
  { promptId := p.id, promptType := p.type, promptText := p.text,
    mode := mode, metrics := m, response := response,
    timestamp := wallClockTimestamp,
    modelName := if mode = InferenceMode.localMode then "Local (3B)" else "Remote (7B)" }

/-! ### Single-mode run: `runBenchmarkSuite` (useBenchmark.ts:265-330)

The `for` loop over `TEST_PROMPTS` pushes each captured result onto the
*local* array `newResults`; the published `results` state is written only
once, after the whole loop, and only if no `generateFn` call threw (a throw
jumps to the `catch`, skipping `setResults`). -/

/-- The loop of `runBenchmarkSuite`, processing `prompts` starting at index
`i`: returns the `newResults` array as built so far, the index and message of
the throwing call if one threw (which aborts the loop), and the list of
indices whose `generateFn` call was actually issued. -/
def suiteLoop (mode : InferenceMode) (gen : ℕ → GenOutcome) :
    List BenchmarkPrompt → ℕ →
      List BenchmarkResult × Option (ℕ × String) × List ℕ
  | [], _ => ([], none, [])
  | p :: rest, i =>
    match gen i with
    | Except.error e => ([], some (i, e), [i])
    | Except.ok g =>
      let tail := suiteLoop mode gen rest (i + 1)
      let here := match g.metrics with
        | some m => [mkBenchmarkResult p mode m g.response]
        | none => []
      (here ++ tail.1, tail.2.1, i :: tail.2.2)

/-- `runBenchmarkSuite` over an explicit corpus (the source iterates the
fixed `TEST_PROMPTS`; the corpus is a parameter here so that statements about
smaller corpora can be expressed).  On a throw the `catch` only logs and the
`finally` clears the busy flag: the partially built `newResults` array is
discarded. -/
def runBenchmarkSuiteOn (prompts : List BenchmarkPrompt) (mode : InferenceMode)
    (gen : ℕ → GenOutcome) (s : BenchState) : BenchState :=
  let start := { s with isRunning := true, currentMode := mode, currentPromptIndex := 0 }
  match suiteLoop mode gen prompts 0 with
  | (newResults, none, attempted) =>
    { start with
        results := start.results ++ newResults,
        currentPromptIndex := attempted.getLastD start.currentPromptIndex,
        isRunning := false }
  | (_, some (j, _), _) =>
    { start with currentPromptIndex := j, isRunning := false }

/-- `runBenchmarkSuite` as shipped: over the fixed corpus. -/
def runBenchmarkSuite (mode : InferenceMode) (gen : ℕ → GenOutcome)
    (s : BenchState) : BenchState :=
  runBenchmarkSuiteOn TEST_PROMPTS mode gen s

/-- The state an observer polls right after prompt `k` (1-based) of a
single-mode run completes, i.e. after `k` executions of the loop body.  The
body's only state write is `setCurrentPromptIndex(i)` (useBenchmark.ts:282);
the generate results go into the local `newResults` array, which is not
published until after the loop. -/
def suiteMidRun (mode : InferenceMode) (s : BenchState) (k : ℕ) : BenchState :=
  let start := { s with isRunning := true, currentMode := mode, currentPromptIndex := 0 }
  (List.range k).foldl (fun st i => { st with currentPromptIndex := i }) start

/-! ### Comparison run: `runComparisonBenchmark` (useBenchmark.ts:333-487) -/

/-- The all-null comparison matrix published before any work happens
(useBenchmark.ts:351-359). -/
def initialComparison (prompts : List BenchmarkPrompt) : List ComparisonResult :=
  prompts.map (fun p =>
    { promptId := p.id, promptText := p.text,
      localMetrics := none, localResponse := none,
      remote := none, remoteResponse := none,
      localError := none, remoteError := none })

/-- `prev.map((r, idx) => idx === i ? f(r) : r)`: the live, index-targeted
update used by `setComparisonResults` (useBenchmark.ts:382-392 etc.). -/
def mapAtIdx {α : Type} (l : List α) (i : ℕ) (f : α → α) : List α :=
  l.enum.map (fun x => if x.1 = i then f x.2 else x.2)

/-- The local half of one comparison iteration (useBenchmark.ts:369-417):
run only when `isLocalReady`; on normal return the matrix row `i` gets
`local := localMetrics` and `localResponse := localResponse || null`, and a
local-mode `BenchmarkResult` is pushed iff metrics were captured; on a throw
only `localError` is recorded. -/
def compLocalPhase (isLocalReady : Bool) (genL : ℕ → GenOutcome)
    (p : BenchmarkPrompt) (i : ℕ)
    (cr : List ComparisonResult) (acc : List BenchmarkResult) :
    List ComparisonResult × List BenchmarkResult :=
  if isLocalReady then
    match genL i with
    | Except.ok g =>
      let cr1 := mapAtIdx cr i (fun r =>
        { r with localMetrics := g.metrics, localResponse := strOrNull g.response })
      match g.metrics with
      | some m => (cr1, acc ++ [mkBenchmarkResult p InferenceMode.localMode m g.response])
      | none => (cr1, acc)
    | Except.error e =>
      (mapAtIdx cr i (fun r => { r with localError := some e }), acc)
  else (cr, acc)

/-- The remote half of one comparison iteration (useBenchmark.ts:420-463):
always run, structure mirroring the local half. -/
def compRemotePhase (genR : ℕ → GenOutcome) (p : BenchmarkPrompt) (i : ℕ)
    (cr : List ComparisonResult) (acc : List BenchmarkResult) :
    List ComparisonResult × List BenchmarkResult :=
  match genR i with
  | Except.ok g =>
    let cr1 := mapAtIdx cr i (fun r =>
      { r with remote := g.metrics, remoteResponse := strOrNull g.response })
    match g.metrics with
    | some m => (cr1, acc ++ [mkBenchmarkResult p InferenceMode.remoteMode m g.response])
    | none => (cr1, acc)
  | Except.error e =>
    (mapAtIdx cr i (fun r => { r with remoteError := some e }), acc)

/-- One full iteration of the comparison loop for prompt index `i`. -/
def compPromptStep (prompts : List BenchmarkPrompt) (isLocalReady : Bool)
    (genL genR : ℕ → GenOutcome) (i : ℕ)
    (st : List ComparisonResult × List BenchmarkResult) :
    List ComparisonResult × List BenchmarkResult :=
  match prompts[i]? with
  | none => st
  | some p =>
    let st1 := compLocalPhase isLocalReady genL p i st.1 st.2
    compRemotePhase genR p i st1.1 st1.2

/-- The pair (published comparison matrix, local `newBenchmarkResults` array)
after the first `k` iterations of the comparison loop.  Every change to the
matrix goes through `setComparisonResults`, so the first component *is* the
value an observer polls at that point. -/
def comparisonRunState (prompts : List BenchmarkPrompt) (isLocalReady : Bool)
    (genL genR : ℕ → GenOutcome) (k : ℕ) :
    List ComparisonResult × List BenchmarkResult :=
  (List.range k).foldl
    (fun st i => compPromptStep prompts isLocalReady genL genR i st)
    (initialComparison prompts, [])

/-- `runComparisonBenchmark` over an explicit corpus: initializes and
publishes the null matrix, runs the loop (both phases per prompt wrapped in
their own try/catch, so no throw escapes an iteration), then appends the
collected rows to `results` and clears the busy flag. -/
def runComparisonBenchmarkOn (prompts : List BenchmarkPrompt)
    (genL genR : ℕ → GenOutcome) (isLocalReady : Bool) (s : BenchState) :
    BenchState :=
  let n := prompts.length
  let final := comparisonRunState prompts isLocalReady genL genR n
  { s with
      comparisonResults := final.1,
      results := s.results ++ final.2,
      isComparing := false,
      currentPromptIndex := n - 1,
      currentMode := if 0 < n then InferenceMode.remoteMode else s.currentMode }

/-- `runComparisonBenchmark` as shipped: over the fixed corpus. -/
def runComparisonBenchmark (genL genR : ℕ → GenOutcome) (isLocalReady : Bool)
    (s : BenchState) : BenchState :=
  runComparisonBenchmarkOn TEST_PROMPTS genL genR isLocalReady s

/-- A generate outcome as the repository backends can actually produce it:
either a throw, or a normal return that delivered metrics (both backends
invoke `onMetrics` exactly once, immediately before resolving). -/
def backendOutcome (o : GenOutcome) : Prop :=
  (∃ e, o = Except.error e) ∨ ∃ resp m, o = Except.ok ⟨resp, some m⟩

/-- The local cell of a comparison row has been written: a success stored
metrics, or a failure stored an error message. -/
def localCellSettled (r : ComparisonResult) : Prop :=
  r.localMetrics ≠ none ∨ r.localError ≠ none

/-- The remote cell of a comparison row has been written. -/
def remoteCellSettled (r : ComparisonResult) : Prop :=
  r.remote ≠ none ∨ r.remoteError ≠ none

/-! ### `clearResults` and the result sink (useBenchmark.ts:489-498,
remoteApi.ts:206-282) -/

/-- Outcome of an awaited sink call. -/
abbrev SinkOutcome := Except String Unit

/-- `clearResults`: unconditionally empties both in-memory collections, then
awaits the sink's clear inside try/catch; a sink failure is only logged
(returned as the second component), never rethrown. -/
def clearResults (s : BenchState) (sinkClear : SinkOutcome) :
    BenchState × Option String :=
  let s1 := { s with results := [], comparisonResults := [] }
  match sinkClear with
  | Except.ok _ => (s1, none)
  | Except.error e => (s1, some e)

/-- `fetchBenchmarkResults` (remoteApi.ts:206-231): a failed fetch is caught
and yields the empty list instead of propagating. -/
def fetchBenchmarkResultsModel
    (outcome : Except String (List BenchmarkResult)) : List BenchmarkResult :=
  match outcome with
  | Except.ok loaded => loaded
  | Except.error _ => []

/-! ### CSV export: `downloadCSV` (useBenchmark.ts:500-544) -/

/-- `s.replace(/"/g, '""')`: the global single-character regex replaces each
double-quote character by two of them, character by character. -/
def doubleQuotes (s : String) : String :=
  String.mk (s.data.flatMap (fun c => if c = '"' then ['"', '"'] else [c]))

/-- `'"' + s.replace(/"/g, '""') + '"'`: quote a CSV field, doubling every
internal double quote. -/
def csvQuote (s : String) : String :=
  "\"" ++ doubleQuotes s ++ "\""

/-- The CSV value of a mode (the union values `'local'`/`'remote'`). -/
def InferenceMode.str : InferenceMode → String
  | InferenceMode.localMode => "local"
  | InferenceMode.remoteMode => "remote"

/-- The CSV value of a prompt type. -/
def PromptType.str : PromptType → String
  | PromptType.short => "short"
  | PromptType.medium => "medium"
  | PromptType.long => "long"
  | PromptType.reasoning => "reasoning"

/-- `x.toFixed(2)` on the exact rational value: round to the nearest
hundredth and render with two decimals.  No claim depends on rounding ties. -/
def toFixed2 (q : ℚ) : String :=
  let n : ℤ := round (q * 100)
  let sign := if n < 0 then "-" else ""
  let m := n.natAbs
  sign ++ toString (m / 100) ++ "." ++
    (if m % 100 < 10 then "0" else "") ++ toString (m % 100)

/-- The header row (useBenchmark.ts:503-514). -/
def csvHeaders : List String :=
  ["Timestamp", "Mode", "Model", "Prompt Type", "Prompt", "Response",
   "TTFT (ms)", "Total Time (ms)", "Tokens/Sec", "Token Count"]

/-- One data row (useBenchmark.ts:515-526): Prompt and Response are quoted
with internal quotes doubled, the numeric fields rendered via `toFixed(2)`. -/
def csvRow (r : BenchmarkResult) : List String :=
  [r.timestamp, r.mode.str, r.modelName, r.promptType.str,
   csvQuote r.promptText, csvQuote r.response,
   toFixed2 r.metrics.ttftMs, toFixed2 r.metrics.totalTimeMs,
   toFixed2 r.metrics.tokensPerSec, toString r.metrics.tokenCount]

/-- The comma-joined lines, header first (useBenchmark.ts:528-531). -/
def csvLines (results : List BenchmarkResult) : List String :=
  String.intercalate "," csvHeaders ::
    results.map (fun r => String.intercalate "," (csvRow r))

/-- The full file content: lines joined by a newline. -/
def csvContent (results : List BenchmarkResult) : String :=
  String.intercalate "\n" (csvLines results)

/-- `downloadCSV`: with an empty collection it returns before building
anything (no file); otherwise the downloaded file holds `csvContent`. -/
def downloadCSV (results : List BenchmarkResult) : Option String :=
  if results.isEmpty then none else some (csvContent results)

/-! ## Engine lifecycle: `initEngine` / `resetEngine` / `clearModelCache`
(src/client/src/hooks/useWebLLM.ts:47-225) -/

/-- The `initProgress` record (useWebLLM.ts:12-16). -/
structure InitProgressState where
  progress : ℚ
  text : String
  rawText : String
deriving DecidableEq, Repr

/-- The state cells of `useWebLLM` plus the `hasTriedInitRef` ref.  `engine`
records whether `setEngine` has installed an engine instance. -/
structure WebLLMState where
  engine : Bool
  isLoading : Bool
  error : Option String
  isInitialized : Bool
  initProgress : Option InitProgressState
  hasTriedInit : Bool
deriving DecidableEq, Repr

/-- Outcome of `await eng.reload(...)`. -/
abbrev ReloadOutcome := Except String Unit

/-- `initEngine` (useWebLLM.ts:56-102).  `reload` is the outcome of the
awaited model load; `progressDuringLoad` is the last value the progress
callback stored (or `none` if it never fired).  The guard
`if (hasTriedInitRef.current) return` makes every call after the first a
no-op, regardless of whether the first attempt succeeded. -/
def initEngine (s : WebLLMState) (reload : ReloadOutcome)
    (progressDuringLoad : Option InitProgressState) : WebLLMState :=
  if s.hasTriedInit then s
  else
    match reload with
    | Except.ok _ =>
      { s with hasTriedInit := true, isLoading := false, error := none,
               initProgress := progressDuringLoad,
               engine := true, isInitialized := true }
    | Except.error msg =>
      { s with hasTriedInit := true, isLoading := false, error := some msg,
               initProgress := progressDuringLoad,
               isInitialized := false }

/-- `resetEngine` (useWebLLM.ts:193-199): drops the engine, clears the
derived state and re-arms `hasTriedInitRef`. -/
def resetEngine (s : WebLLMState) : WebLLMState :=
  { s with engine := false, isInitialized := false, error := none,
           initProgress := none, hasTriedInit := false }

/-- `clearModelCache` (useWebLLM.ts:209-225): on a successful cache delete it
resets exactly like `resetEngine`; on failure it records the error and
rethrows (second component `true`), leaving `hasTriedInitRef` armed. -/
def clearModelCache (s : WebLLMState) (deleteOutcome : Except String Unit) :
    WebLLMState × Bool :=
  match deleteOutcome with
  | Except.ok _ =>
    ({ s with engine := false, isInitialized := false, error := none,
              initProgress := none, hasTriedInit := false }, false)
  | Except.error msg => ({ s with error := some msg }, true)

/-! ## Concrete example inputs -/

/-- A ten-fragment remote stream: first content at t = 200, ten non-empty
content fragments, stream exhausted at t = 1200. -/
def exampleRemoteFrags : List RemoteFragment :=
  [⟨200, "tok"⟩, ⟨300, "tok"⟩, ⟨400, "tok"⟩, ⟨500, "tok"⟩, ⟨600, "tok"⟩,
   ⟨700, "tok"⟩, ⟨800, "tok"⟩, ⟨900, "tok"⟩, ⟨1000, "tok"⟩, ⟨1100, "tok"⟩]

/-- A local stream with first content at t = 200 and a terminal usage record
reporting 10 completion tokens. -/
def exampleLocalChunks : List LocalChunk :=
  [⟨200, "tok", none⟩, ⟨300, "tok", none⟩, ⟨400, "tok", none⟩, ⟨500, "tok", none⟩,
   ⟨600, "tok", none⟩, ⟨700, "tok", none⟩, ⟨800, "tok", none⟩, ⟨900, "tok", none⟩,
   ⟨1000, "tok", none⟩, ⟨1100, "", some ⟨some 57, some 10⟩⟩]

/-! ## Helper lemmas -/

theorem mapAtIdx_length {α : Type} (l : List α) (i : ℕ) (f : α → α) :
    (mapAtIdx l i f).length = l.length := by
  simp [mapAtIdx, List.enum_length]

theorem mapAtIdx_getElem? {α : Type} (l : List α) (i j : ℕ) (f : α → α) :
    (mapAtIdx l i f)[j]? = if j = i then (l[j]?).map f else l[j]? := by
  unfold mapAtIdx
  rw [List.getElem?_map, List.getElem?_enum]
  cases h : l[j]? with
  | none => simp
  | some a => by_cases hj : j = i <;> simp [hj]

/-! ## Claim theorems -/

/-- C10: `initEngine` performs at most one initialization attempt per engine
lifecycle: a call that finds the attempt flag set returns immediately with the
state unchanged; every call leaves the flag set, so any second call — even
after a failed first attempt — is the identity; `resetEngine` and a successful
`clearModelCache` re-arm the flag. -/
theorem initEngine_at_most_once (s : WebLLMState) (r r' : ReloadOutcome)
    (p p' : Option InitProgressState) :
    (s.hasTriedInit = true → initEngine s r p = s) ∧
    (initEngine s r p).hasTriedInit = true ∧
    initEngine (initEngine s r p) r' p' = initEngine s r p ∧
    (resetEngine s).hasTriedInit = false ∧
    (clearModelCache s (Except.ok ())).1.hasTriedInit = false := by
  have hid : ∀ (t : WebLLMState) (rr : ReloadOutcome) (pp : Option InitProgressState),
      t.hasTriedInit = true → initEngine t rr pp = t := by
    intro t rr pp ht
    simp [initEngine, ht]
  have htrue : (initEngine s r p).hasTriedInit = true := by
    by_cases h : s.hasTriedInit
    · simp [initEngine, h]
    · cases r <;> simp [initEngine, h]
  exact ⟨hid s r p, htrue, hid _ r' p' htrue, rfl, rfl⟩

/-- Witness for C10: an armed state is left untouched, and after a failed
first attempt the next call is a no-op on the error state. -/
theorem initEngine_at_most_once_witness :
    (initEngine ⟨false, false, none, false, none, true⟩ (Except.ok ()) none
        = ⟨false, false, none, false, none, true⟩) ∧
    initEngine (initEngine ⟨false, false, none, false, none, false⟩
        (Except.error "WebGPU unavailable") none) (Except.ok ()) none
      = initEngine ⟨false, false, none, false, none, false⟩
        (Except.error "WebGPU unavailable") none ∧
    (initEngine ⟨false, false, none, false, none, false⟩
        (Except.error "WebGPU unavailable") none).hasTriedInit = true := by
  have h1 := initEngine_at_most_once ⟨false, false, none, false, none, true⟩
    (Except.ok ()) (Except.ok ()) none none
  have h2 := initEngine_at_most_once ⟨false, false, none, false, none, false⟩
    (Except.error "WebGPU unavailable") (Except.ok ()) none none
  exact ⟨h1.1 rfl, h2.2.2.1, h2.2.1⟩

/-- C9: `clearResults` empties both in-memory collections unconditionally and
issues the sink clear; a failing sink clear is caught (surfacing only as the
logged message), never propagated, and a failing sink fetch likewise yields
the empty list instead of an exception. -/
theorem clearResults_empties_both (s : BenchState) (o : SinkOutcome) :
    (clearResults s o).1.results = [] ∧
    (clearResults s o).1.comparisonResults = [] ∧
    (∀ e, o = Except.error e → (clearResults s o).2 = some e) ∧
    (∀ msg, fetchBenchmarkResultsModel (Except.error msg) = []) := by
  cases o with
  | ok u =>
    refine ⟨rfl, rfl, ?_, fun _ => rfl⟩
    intro e h
    simp at h
  | error e =>
    refine ⟨rfl, rfl, ?_, fun _ => rfl⟩
    intro e' h
    injection h with h2
    subst h2
    rfl

/-- Witness for C9: a populated state cleared while the sink clear fails
still ends with both collections empty, the failure only logged. -/
theorem clearResults_empties_both_witness :
    (clearResults
        ⟨[⟨"short_1", PromptType.short, "What is the capital of France?",
           InferenceMode.remoteMode, ⟨200, 1200, 9, 10⟩, "Paris.", "", "Remote (7B)"⟩],
         [⟨"short_1", "What is the capital of France?", none, none, none, none, none, none⟩],
         false, false, 0, InferenceMode.localMode⟩
        (Except.error "network down")).1.results = [] ∧
    (clearResults
        ⟨[⟨"short_1", PromptType.short, "What is the capital of France?",
           InferenceMode.remoteMode, ⟨200, 1200, 9, 10⟩, "Paris.", "", "Remote (7B)"⟩],
         [⟨"short_1", "What is the capital of France?", none, none, none, none, none, none⟩],
         false, false, 0, InferenceMode.localMode⟩
        (Except.error "network down")).1.comparisonResults = [] ∧
    (clearResults
        ⟨[⟨"short_1", PromptType.short, "What is the capital of France?",
           InferenceMode.remoteMode, ⟨200, 1200, 9, 10⟩, "Paris.", "", "Remote (7B)"⟩],
         [⟨"short_1", "What is the capital of France?", none, none, none, none, none, none⟩],
         false, false, 0, InferenceMode.localMode⟩
        (Except.error "network down")).2 = some "network down" := by
  have h := clearResults_empties_both
    ⟨[⟨"short_1", PromptType.short, "What is the capital of France?",
       InferenceMode.remoteMode, ⟨200, 1200, 9, 10⟩, "Paris.", "", "Remote (7B)"⟩],
     [⟨"short_1", "What is the capital of France?", none, none, none, none, none, none⟩],
     false, false, 0, InferenceMode.localMode⟩
    (Except.error "network down")
  exact ⟨h.1, h.2.1, h.2.2.1 "network down" rfl⟩

/-- C8: CSV export of an empty collection produces no file; of `n` results it
produces a file of exactly `n + 1` newline-joined lines whose first line is
exactly the ten required column headers, and in every data row the Prompt and
Response values are wrapped in double quotes with each internal double quote
doubled. -/
theorem downloadCSV_shape :
    downloadCSV [] = none ∧
    ∀ rs : List BenchmarkResult, rs ≠ [] →
      downloadCSV rs = some (String.intercalate "\n" (csvLines rs)) ∧
      (csvLines rs).length = rs.length + 1 ∧
      (csvLines rs).head? =
        some "Timestamp,Mode,Model,Prompt Type,Prompt,Response,TTFT (ms),Total Time (ms),Tokens/Sec,Token Count" ∧
      ∀ r ∈ rs,
        (csvRow r)[4]? = some ("\"" ++ doubleQuotes r.promptText ++ "\"") ∧
        (csvRow r)[5]? = some ("\"" ++ doubleQuotes r.response ++ "\"") := by
  refine ⟨rfl, fun rs h => ⟨?_, by simp [csvLines], rfl, fun r _ => ⟨rfl, rfl⟩⟩⟩
  cases rs with
  | nil => exact absurd rfl h
  | cons a as => rfl

/-- Witness for C8: one result whose prompt and response embed double quotes;
the export is a two-line file with the quotes doubled. -/
theorem downloadCSV_shape_witness :
    (([⟨"short_1", PromptType.short, "Say \"hi\"", InferenceMode.remoteMode,
        ⟨200, 1200, 9, 10⟩, "He said \"hi\".", "2024-01-01T00:00:00.000Z",
        "Remote (7B)"⟩] : List BenchmarkResult) ≠ []) ∧
    downloadCSV [⟨"short_1", PromptType.short, "Say \"hi\"", InferenceMode.remoteMode,
        ⟨200, 1200, 9, 10⟩, "He said \"hi\".", "2024-01-01T00:00:00.000Z",
        "Remote (7B)"⟩]
      = some ("Timestamp,Mode,Model,Prompt Type,Prompt,Response,TTFT (ms),Total Time (ms),Tokens/Sec,Token Count\n2024-01-01T00:00:00.000Z,remote,Remote (7B),short,\"Say \"\"hi\"\"\",\"He said \"\"hi\"\".\",200.00,1200.00,9.00,10") ∧
    (csvLines [⟨"short_1", PromptType.short, "Say \"hi\"", InferenceMode.remoteMode,
        ⟨200, 1200, 9, 10⟩, "He said \"hi\".", "2024-01-01T00:00:00.000Z",
        "Remote (7B)"⟩]).length = 2 := by
  have h := downloadCSV_shape.2
    [⟨"short_1", PromptType.short, "Say \"hi\"", InferenceMode.remoteMode,
      ⟨200, 1200, 9, 10⟩, "He said \"hi\".", "2024-01-01T00:00:00.000Z",
      "Remote (7B)"⟩] (List.cons_ne_nil _ _)
  refine ⟨List.cons_ne_nil _ _, ?_, h.2.1⟩
  rw [h.1]
  have h200 : toFixed2 200 = "200.00" := by
    norm_num [toFixed2, round_eq]
    rfl
  have h1200 : toFixed2 1200 = "1200.00" := by
    norm_num [toFixed2, round_eq]
    rfl
  have h9 : toFixed2 9 = "9.00" := by
    norm_num [toFixed2, round_eq]
    rfl
  simp only [csvLines, csvRow, List.map, h200, h1200, h9]
  rfl

theorem countSystem_map (l : List Message) :
    ((l.map (fun m => (⟨m.role, m.content⟩ : ApiMessage))).filter
        (fun m => decide (m.role = Role.system))).length
      = (l.filter (fun m => decide (m.role = Role.system))).length := by
  induction l with
  | nil => rfl
  | cons a l ih =>
    by_cases h : a.role = Role.system <;> simp [List.filter_cons, h, ih]

theorem countSystem_remoteFiltered (l : List Message) :
    (((l.filter (fun m => decide (m.role ≠ Role.system))).map
        (fun m => (⟨m.role, m.content⟩ : ApiMessage))).filter
        (fun m => decide (m.role = Role.system))).length = 0 := by
  induction l with
  | nil => rfl
  | cons a l ih =>
    by_cases h : a.role = Role.system <;>
      simp [List.filter_cons, h, ih] <;>
      (intro b x hxmem hxrole heq; subst heq; exact hxrole)

/-- C5 (amended): both backends prepend their fixed system preamble in first
position, but only the remote backend strips pre-existing system messages
from the caller-supplied history (so its sent sequence always contains
exactly one system message); the local backend forwards the history
unfiltered, so its sent sequence contains one system message more than the
history does — exactly one precisely when the history itself contains none. -/
theorem generate_system_preamble (history : List Message) :
    (remoteBuildMessages history).head? = some ⟨Role.system, remoteSystemPreamble⟩ ∧
    ((remoteBuildMessages history).filter
        (fun m => decide (m.role = Role.system))).length = 1 ∧
    (localBuildMessages history).head? = some ⟨Role.system, localSystemPreamble⟩ ∧
    (localBuildMessages history).tail
      = history.map (fun m => ⟨m.role, m.content⟩) ∧
    ((localBuildMessages history).filter
        (fun m => decide (m.role = Role.system))).length
      = (history.filter (fun m => decide (m.role = Role.system))).length + 1 := by
  refine ⟨rfl, ?_, rfl, rfl, ?_⟩
  · simp [remoteBuildMessages, List.filter_cons]
    intro b x hxmem hxrole heq
    subst heq
    exact hxrole
  · simp [localBuildMessages, List.filter_cons, countSystem_map, Nat.add_comm]

/-- C5 counterexample: on a history that already holds a system message the
local backend's sent sequence contains two system messages, not exactly
one — the pre-existing system message is not removed. -/
theorem generate_system_preamble_counterexample :
    ((localBuildMessages [⟨"m1", Role.system, "persona override"⟩]).filter
        (fun m => decide (m.role = Role.system))).length = 2 ∧
    ¬ ((localBuildMessages [⟨"m1", Role.system, "persona override"⟩]).filter
        (fun m => decide (m.role = Role.system))).length = 1 := by
  decide

theorem foldl_usage_none (l : List LocalChunk) :
    (∀ c ∈ l, c.usage = none) →
    ∀ acc : Option UsageInfo,
      l.foldl (fun acc c => match c.usage with
        | some u => some u
        | none => acc) acc = acc := by
  induction l with
  | nil => intro _ acc; rfl
  | cons a l ih =>
    intro h acc
    have ha : a.usage = none := h a (List.mem_cons_self a l)
    simp only [List.foldl_cons, ha]
    exact ih (fun c hc => h c (List.mem_cons_of_mem a hc)) acc

theorem localLastUsage_none (chunks : List LocalChunk)
    (h : ∀ c ∈ chunks, c.usage = none) : localLastUsage chunks = none :=
  foldl_usage_none chunks h none

/-- C7 (amended): token accounting differs between the backends.  The local
backend takes `tokenCount` from the usage figure on the terminal fragment
(`usage?.completion_tokens ?? 0`) and never counts content fragments — with
no usage figure anywhere the count is 0 no matter how many content fragments
arrived.  The remote backend counts non-empty content fragments and never
consults a usage figure — a stream of k non-empty fragments yields
`tokenCount = k`. -/
theorem tokenCount_accounting (startTime endTime : ℚ) (chunks : List LocalChunk)
    (frags : List RemoteFragment) :
    (localComputeMetrics startTime endTime chunks).tokenCount
      = localCompletionTokens chunks ∧
    (∀ (cs : List LocalChunk) (c : LocalChunk) (u : UsageInfo) (n : ℕ),
        c.usage = some u → u.completion_tokens = some n →
        localCompletionTokens (cs ++ [c]) = n) ∧
    ((∀ c ∈ chunks, c.usage = none) → localCompletionTokens chunks = 0) ∧
    (remoteComputeMetrics startTime endTime frags).tokenCount
      = (frags.filter (fun f => decide (0 < f.content.length))).length := by
  refine ⟨rfl, ?_, ?_, rfl⟩
  · intro cs c u n hc hu
    simp [localCompletionTokens, localLastUsage, List.foldl_append, hc, hu]
  · intro h
    simp [localCompletionTokens, localLastUsage_none chunks h]

/-- C7 counterexample: a local stream delivering three non-empty content
fragments and no usage figure yields `tokenCount = 0`, not 3. -/
theorem tokenCount_counterexample :
    (localComputeMetrics 0 1000
        [⟨100, "a", none⟩, ⟨200, "b", none⟩, ⟨300, "c", none⟩]).tokenCount = 0 ∧
    ¬ (localComputeMetrics 0 1000
        [⟨100, "a", none⟩, ⟨200, "b", none⟩, ⟨300, "c", none⟩]).tokenCount = 3 := by
  exact ⟨rfl, by decide⟩

/-- Witness for C7: a terminal usage figure of 10 yields local tokenCount 10;
an all-usage-less local stream yields 0; a three-fragment remote stream
yields 3. -/
theorem tokenCount_accounting_witness :
    localCompletionTokens
        ([⟨200, "tok", none⟩] ++ [⟨1100, "", some ⟨some 57, some 10⟩⟩]) = 10 ∧
    localCompletionTokens
        [⟨100, "a", none⟩, ⟨200, "b", none⟩, ⟨300, "c", none⟩] = 0 ∧
    (remoteComputeMetrics 0 1000 [⟨100, "a"⟩, ⟨200, "b"⟩, ⟨300, "c"⟩]).tokenCount
      = 3 := by
  have h := tokenCount_accounting 0 1000
    [⟨100, "a", none⟩, ⟨200, "b", none⟩, ⟨300, "c", none⟩]
    [⟨100, "a"⟩, ⟨200, "b"⟩, ⟨300, "c"⟩]
  refine ⟨h.2.1 [⟨200, "tok", none⟩] ⟨1100, "", some ⟨some 57, some 10⟩⟩
      ⟨some 57, some 10⟩ 10 rfl rfl,
    h.2.2.1 (by simp [List.forall_mem_cons]), ?_⟩
  rw [h.2.2.2]
  rfl

theorem localTokensPerSec_nonneg (fct : Option ℚ) (endTime totalTimeMs : ℚ)
    (ct : ℕ) : 0 ≤ localTokensPerSec fct endTime totalTimeMs ct := by
  cases fct with
  | none =>
    simp only [localTokensPerSec]
    split
    · next h =>
      exact div_nonneg (Nat.cast_nonneg ct)
        (div_nonneg (le_of_lt h.2) (by norm_num))
    · exact le_rfl
  | some tf =>
    simp only [localTokensPerSec]
    by_cases h2 : 2 ≤ ct
    · rw [if_pos h2]
      refine div_nonneg ?_ (div_nonneg ?_ (by norm_num))
      · have h2q : (2 : ℚ) ≤ (ct : ℚ) := by exact_mod_cast h2
        linarith
      · have := le_max_left (1 : ℚ) (endTime - tf)
        linarith
    · rw [if_neg h2]
      split
      · next h =>
        exact div_nonneg (Nat.cast_nonneg ct)
          (div_nonneg (le_of_lt h.2) (by norm_num))
      · exact le_rfl

theorem remoteTPS_nonneg (st et : ℚ) (frags : List RemoteFragment) :
    0 ≤ (remoteComputeMetrics st et frags).tokensPerSec := by
  show 0 ≤ (if 0 < et - st
    then ((remoteTokenCount frags : ℚ)) / ((et - st) / 1000) else 0)
  split
  · next h =>
    exact div_nonneg (Nat.cast_nonneg _) (div_nonneg (le_of_lt h) (by norm_num))
  · exact le_refl 0

/-- C4 (amended): the local backend follows the normalized rule — with a
known first-content time and tokenCount ≥ 2 it emits
`(tokenCount − 1) / (max 1 (tEnd − tFirst) / 1000)`, which equals the claimed
decode-phase formula whenever `tEnd − tFirst ≥ 1` ms (on the claim's example
this yields 9.0); otherwise it takes the end-to-end fallback
`tokenCount / (totalTimeMs / 1000)` when `tokenCount > 0` and
`totalTimeMs > 0`, else 0.  The remote backend does *not* use the
decode-phase formula: it always emits the end-to-end rate
`tokenCount / (totalTimeMs / 1000)` when `totalTimeMs > 0`, else 0 — on the
claim's example this yields 25/3, not 9.0.  Neither backend ever emits a
negative rate. -/
theorem tokensPerSec_formulas (startTime endTime : ℚ) (chunks : List LocalChunk)
    (frags : List RemoteFragment) (tFirst : ℚ) :
    (localFirstContentTime chunks = some tFirst →
      2 ≤ localCompletionTokens chunks →
      1 ≤ endTime - tFirst →
      (localComputeMetrics startTime endTime chunks).tokensPerSec
        = ((localCompletionTokens chunks : ℚ) - 1) / ((endTime - tFirst) / 1000)) ∧
    ((localFirstContentTime chunks = none ∨ localCompletionTokens chunks < 2) →
      (localComputeMetrics startTime endTime chunks).tokensPerSec
        = if 0 < localCompletionTokens chunks ∧ 0 < endTime - startTime then
            (localCompletionTokens chunks : ℚ) / ((endTime - startTime) / 1000)
          else 0) ∧
    ((remoteComputeMetrics startTime endTime frags).tokensPerSec
        = if 0 < endTime - startTime then
            (remoteTokenCount frags : ℚ) / ((endTime - startTime) / 1000)
          else 0) ∧
    0 ≤ (localComputeMetrics startTime endTime chunks).tokensPerSec ∧
    0 ≤ (remoteComputeMetrics startTime endTime frags).tokensPerSec ∧
    (localComputeMetrics 0 1200 exampleLocalChunks).tokensPerSec = 9 ∧
    (remoteComputeMetrics 0 1200 exampleRemoteFrags).tokensPerSec = 25 / 3 := by
  have hunfold : (localComputeMetrics startTime endTime chunks).tokensPerSec
      = localTokensPerSec (localFirstContentTime chunks) endTime
          (endTime - startTime) (localCompletionTokens chunks) := rfl
  refine ⟨?_, ?_, rfl, ?_, remoteTPS_nonneg startTime endTime frags, ?_, ?_⟩
  · intro hfc h2 h1e
    rw [hunfold, hfc]
    simp only [localTokensPerSec]
    rw [if_pos h2, max_eq_right h1e]
  · intro hor
    rw [hunfold]
    rcases hor with hnone | hlt
    · rw [hnone]
      simp only [localTokensPerSec]
    · cases hfc : localFirstContentTime chunks with
      | none => rfl
      | some tf =>
        simp only [localTokensPerSec]
        rw [if_neg (Nat.not_le.mpr hlt)]
  · rw [hunfold]
    exact localTokensPerSec_nonneg _ _ _ _
  · have hfc : localFirstContentTime exampleLocalChunks = some 200 := rfl
    have hct : localCompletionTokens exampleLocalChunks = 10 := rfl
    have hu : (localComputeMetrics 0 1200 exampleLocalChunks).tokensPerSec
        = localTokensPerSec (localFirstContentTime exampleLocalChunks) 1200
            (1200 - 0) (localCompletionTokens exampleLocalChunks) := rfl
    rw [hu, hfc, hct]
    simp only [localTokensPerSec]
    rw [if_pos (by norm_num), max_eq_right (by norm_num : (1 : ℚ) ≤ 1200 - 200)]
    norm_num
  · have hct : remoteTokenCount exampleRemoteFrags = 10 := rfl
    show (if 0 < (1200 : ℚ) - 0
      then ((remoteTokenCount exampleRemoteFrags : ℚ)) / (((1200 : ℚ) - 0) / 1000)
      else 0) = 25 / 3
    rw [hct, if_pos (by norm_num)]
    norm_num

/-- C4 counterexample: at the claim's own example figures (tokenCount 10,
ttftMs 200, totalTimeMs 1200) the remote backend emits the end-to-end rate
25/3 ≈ 8.33, not the decode-phase value 9.0 that the claim requires of both
backends. -/
theorem tokensPerSec_counterexample :
    (remoteComputeMetrics 0 1200 exampleRemoteFrags).tokenCount = 10 ∧
    (remoteComputeMetrics 0 1200 exampleRemoteFrags).ttftMs = 200 ∧
    (remoteComputeMetrics 0 1200 exampleRemoteFrags).totalTimeMs = 1200 ∧
    (remoteComputeMetrics 0 1200 exampleRemoteFrags).tokensPerSec = 25 / 3 ∧
    ¬ (remoteComputeMetrics 0 1200 exampleRemoteFrags).tokensPerSec
        = ((10 : ℚ) - 1) / (((1200 : ℚ) - 200) / 1000) := by
  have hfirst : remoteFirstTokenTime exampleRemoteFrags = some 200 := rfl
  have hct : remoteTokenCount exampleRemoteFrags = 10 := rfl
  have htps : (remoteComputeMetrics 0 1200 exampleRemoteFrags).tokensPerSec
      = 25 / 3 := by
    show (if 0 < (1200 : ℚ) - 0
      then ((remoteTokenCount exampleRemoteFrags : ℚ)) / (((1200 : ℚ) - 0) / 1000)
      else 0) = 25 / 3
    rw [hct, if_pos (by norm_num)]
    norm_num
  have httft : (remoteComputeMetrics 0 1200 exampleRemoteFrags).ttftMs = 200 := by
    have hu : (remoteComputeMetrics 0 1200 exampleRemoteFrags).ttftMs
        = (match remoteFirstTokenTime exampleRemoteFrags with
           | some t => if t = 0 then 0 else t - 0
           | none => 0) := rfl
    rw [hu, hfirst]
    norm_num
  refine ⟨hct, httft, by norm_num [remoteComputeMetrics], htps, ?_⟩
  rw [htps]
  norm_num

/-- Witness for C4 at the example inputs: the decode-formula branch of the
local backend applies and the remote backend yields the end-to-end value. -/
theorem tokensPerSec_formulas_witness :
    localFirstContentTime exampleLocalChunks = some 200 ∧
    2 ≤ localCompletionTokens exampleLocalChunks ∧
    (1 : ℚ) ≤ 1200 - 200 ∧
    (localComputeMetrics 0 1200 exampleLocalChunks).tokensPerSec
      = ((localCompletionTokens exampleLocalChunks : ℚ) - 1)
          / (((1200 : ℚ) - 200) / 1000) ∧
    (remoteComputeMetrics 0 1200 exampleRemoteFrags).tokensPerSec = 25 / 3 := by
  have h := tokensPerSec_formulas 0 1200 exampleLocalChunks exampleRemoteFrags 200
  exact ⟨rfl, by decide, by norm_num,
    h.1 rfl (by decide) (by norm_num), h.2.2.2.2.2.2⟩

/-- C2 (amended): neither run entry point consults the busy flags — a run
invoked on a busy state behaves exactly as on an idle one (the suite
preserves `isComparing`, the comparison run preserves `isRunning`), so
invoking a run while one is active is *not* a no-op: it processes the full
corpus again and appends its rows.  Re-entrancy is prevented only in the UI
layer, which disables the run buttons while `isRunning || isComparing`. -/
theorem runs_ignore_busy_flag (mode : InferenceMode)
    (gen genL genR : ℕ → GenOutcome) (s : BenchState) (b c : Bool) :
    runBenchmarkSuite mode gen { s with isRunning := b, isComparing := c }
      = { runBenchmarkSuite mode gen s with isComparing := c } ∧
    runComparisonBenchmark genL genR true { s with isRunning := b, isComparing := c }
      = { runComparisonBenchmark genL genR true s with isRunning := b } ∧
    (s.isRunning = true → (suiteLoop mode gen TEST_PROMPTS 0).2.1 = none →
      (runBenchmarkSuite mode gen s).results
        = s.results ++ (suiteLoop mode gen TEST_PROMPTS 0).1) ∧
    (s.isComparing = true →
      (runComparisonBenchmark genL genR true s).results
        = s.results
            ++ (comparisonRunState TEST_PROMPTS true genL genR TEST_PROMPTS.length).2) := by
  refine ⟨?_, rfl, ?_, fun _ => rfl⟩
  · unfold runBenchmarkSuite runBenchmarkSuiteOn
    rcases suiteLoop mode gen TEST_PROMPTS 0 with ⟨res, err, att⟩
    rcases err with _ | ⟨j, e⟩ <;> rfl
  · intro _ hnone
    unfold runBenchmarkSuite runBenchmarkSuiteOn
    rcases hsl : suiteLoop mode gen TEST_PROMPTS 0 with ⟨res, err, att⟩
    rw [hsl] at hnone
    simp at hnone
    subst hnone
    rfl

/-- C2 counterexample: with the busy flag set (`isRunning = true`) and every
generate call succeeding, invoking `runBenchmarkSuite` is not rejected — it
runs the corpus and appends 20 fresh rows to the published collection instead
of leaving it unchanged. -/
theorem runs_ignore_busy_flag_counterexample :
    (runBenchmarkSuite InferenceMode.localMode
        (fun _ => Except.ok ⟨"ok", some ⟨0, 1, 0, 1⟩⟩)
        ⟨[], [], true, false, 0, InferenceMode.localMode⟩).results.length = 20 ∧
    ¬ (runBenchmarkSuite InferenceMode.localMode
        (fun _ => Except.ok ⟨"ok", some ⟨0, 1, 0, 1⟩⟩)
        ⟨[], [], true, false, 0, InferenceMode.localMode⟩).results.length = 0 := by
  decide

/-- Witness for C2: a successful full run launched on a busy state appends
the whole collected batch (20 rows). -/
theorem runs_ignore_busy_flag_witness :
    (runBenchmarkSuite InferenceMode.localMode
        (fun _ => Except.ok ⟨"ok", some ⟨0, 1, 0, 1⟩⟩)
        ⟨[], [], true, false, 0, InferenceMode.localMode⟩).results
      = [] ++ (suiteLoop InferenceMode.localMode
          (fun _ => Except.ok ⟨"ok", some ⟨0, 1, 0, 1⟩⟩) TEST_PROMPTS 0).1 ∧
    (suiteLoop InferenceMode.localMode
        (fun _ => Except.ok ⟨"ok", some ⟨0, 1, 0, 1⟩⟩) TEST_PROMPTS 0).1.length
      = 20 := by
  have h := runs_ignore_busy_flag InferenceMode.localMode
    (fun _ => Except.ok ⟨"ok", some ⟨0, 1, 0, 1⟩⟩)
    (fun _ => Except.ok ⟨"ok", some ⟨0, 1, 0, 1⟩⟩)
    (fun _ => Except.ok ⟨"ok", some ⟨0, 1, 0, 1⟩⟩)
    ⟨[], [], true, false, 0, InferenceMode.localMode⟩ true false
  exact ⟨h.2.2.1 rfl rfl, by decide⟩

/-- C3 (amended): a single-mode run is fail-fast — when the call for prompt 2
of a 3-prompt corpus throws, prompt 3 is never attempted — but the earlier
results do *not* remain: the one row collected for prompt 1 lives only in the
local `newResults` array, the throw skips the single `setResults` call, and
the run ends (error merely logged, busy flag cleared) with the published
collection unchanged. -/
theorem runSuite_failfast (p1 p2 p3 : BenchmarkPrompt) (mode : InferenceMode)
    (gen : ℕ → GenOutcome) (s : BenchState) (r1 : String)
    (m1 : InferenceMetrics) (e : String)
    (h0 : gen 0 = Except.ok ⟨r1, some m1⟩)
    (h1 : gen 1 = Except.error e) :
    (suiteLoop mode gen [p1, p2, p3] 0).2.2 = [0, 1] ∧
    (suiteLoop mode gen [p1, p2, p3] 0).1 = [mkBenchmarkResult p1 mode m1 r1] ∧
    (suiteLoop mode gen [p1, p2, p3] 0).2.1 = some (1, e) ∧
    (runBenchmarkSuiteOn [p1, p2, p3] mode gen s).results = s.results ∧
    (runBenchmarkSuiteOn [p1, p2, p3] mode gen s).isRunning = false := by
  have hsl : suiteLoop mode gen [p1, p2, p3] 0
      = ([mkBenchmarkResult p1 mode m1 r1], some (1, e), [0, 1]) := by
    simp [suiteLoop, h0, h1]
  refine ⟨by rw [hsl], by rw [hsl], by rw [hsl], ?_, ?_⟩ <;>
    · unfold runBenchmarkSuiteOn
      rw [hsl]

/-- C3 counterexample: prompt 2 of 3 throwing leaves the published result
collection with zero rows, not the one row the claim promises; only prompts
1 and 2 are attempted. -/
theorem runSuite_failfast_counterexample :
    (runBenchmarkSuiteOn
        [⟨"p1", PromptType.short, "one"⟩, ⟨"p2", PromptType.short, "two"⟩,
         ⟨"p3", PromptType.short, "three"⟩]
        InferenceMode.localMode
        (fun i => if i = 1 then Except.error "boom"
                  else Except.ok ⟨"ok", some ⟨0, 1, 0, 1⟩⟩)
        ⟨[], [], false, false, 0, InferenceMode.localMode⟩).results.length = 0 ∧
    ¬ (runBenchmarkSuiteOn
        [⟨"p1", PromptType.short, "one"⟩, ⟨"p2", PromptType.short, "two"⟩,
         ⟨"p3", PromptType.short, "three"⟩]
        InferenceMode.localMode
        (fun i => if i = 1 then Except.error "boom"
                  else Except.ok ⟨"ok", some ⟨0, 1, 0, 1⟩⟩)
        ⟨[], [], false, false, 0, InferenceMode.localMode⟩).results.length = 1 ∧
    (suiteLoop InferenceMode.localMode
        (fun i => if i = 1 then Except.error "boom"
                  else Except.ok ⟨"ok", some ⟨0, 1, 0, 1⟩⟩)
        [⟨"p1", PromptType.short, "one"⟩, ⟨"p2", PromptType.short, "two"⟩,
         ⟨"p3", PromptType.short, "three"⟩] 0).2.2 = [0, 1] := by
  decide

/-- Witness for C3: at a concrete failing generator the loop attempts exactly
prompts 1 and 2 and the published collection stays empty. -/
theorem runSuite_failfast_witness :
    (suiteLoop InferenceMode.localMode
        (fun i => if i = 1 then Except.error "boom"
                  else Except.ok ⟨"ok", some ⟨0, 1, 0, 1⟩⟩)
        [⟨"p1", PromptType.short, "one"⟩, ⟨"p2", PromptType.short, "two"⟩,
         ⟨"p3", PromptType.short, "three"⟩] 0).2.2 = [0, 1] ∧
    (runBenchmarkSuiteOn
        [⟨"p1", PromptType.short, "one"⟩, ⟨"p2", PromptType.short, "two"⟩,
         ⟨"p3", PromptType.short, "three"⟩]
        InferenceMode.localMode
        (fun i => if i = 1 then Except.error "boom"
                  else Except.ok ⟨"ok", some ⟨0, 1, 0, 1⟩⟩)
        ⟨[], [], false, false, 0, InferenceMode.localMode⟩).results = [] ∧
    (runBenchmarkSuiteOn
        [⟨"p1", PromptType.short, "one"⟩, ⟨"p2", PromptType.short, "two"⟩,
         ⟨"p3", PromptType.short, "three"⟩]
        InferenceMode.localMode
        (fun i => if i = 1 then Except.error "boom"
                  else Except.ok ⟨"ok", some ⟨0, 1, 0, 1⟩⟩)
        ⟨[], [], false, false, 0, InferenceMode.localMode⟩).isRunning = false := by
  have h := runSuite_failfast
    ⟨"p1", PromptType.short, "one"⟩ ⟨"p2", PromptType.short, "two"⟩
    ⟨"p3", PromptType.short, "three"⟩
    InferenceMode.localMode
    (fun i => if i = 1 then Except.error "boom"
              else Except.ok ⟨"ok", some ⟨0, 1, 0, 1⟩⟩)
    ⟨[], [], false, false, 0, InferenceMode.localMode⟩
    "ok" ⟨0, 1, 0, 1⟩ "boom" rfl rfl
  exact ⟨h.1, h.2.2.2.1, h.2.2.2.2⟩

theorem mapAtIdx_twice_getElem_self {α : Type} (cr : List α) (k : ℕ)
    (f1 f2 : α → α) :
    (mapAtIdx (mapAtIdx cr k f1) k f2)[k]? = ((cr[k]?).map f1).map f2 := by
  simp [mapAtIdx_getElem?]

theorem comparisonRunState_succ (prompts : List BenchmarkPrompt) (rdy : Bool)
    (genL genR : ℕ → GenOutcome) (k : ℕ) :
    comparisonRunState prompts rdy genL genR (k + 1)
      = compPromptStep prompts rdy genL genR k
          (comparisonRunState prompts rdy genL genR k) := by
  unfold comparisonRunState
  rw [List.range_succ, List.foldl_append]
  rfl

theorem compLocalPhase_fst_length (rdy : Bool) (genL : ℕ → GenOutcome)
    (p : BenchmarkPrompt) (i : ℕ) (cr : List ComparisonResult)
    (acc : List BenchmarkResult) :
    (compLocalPhase rdy genL p i cr acc).1.length = cr.length := by
  unfold compLocalPhase
  split
  · cases genL i with
    | ok g =>
      obtain ⟨resp, met⟩ := g
      cases met <;> simp [mapAtIdx_length]
    | error e => simp [mapAtIdx_length]
  · rfl

theorem compRemotePhase_fst_length (genR : ℕ → GenOutcome)
    (p : BenchmarkPrompt) (i : ℕ) (cr : List ComparisonResult)
    (acc : List BenchmarkResult) :
    (compRemotePhase genR p i cr acc).1.length = cr.length := by
  unfold compRemotePhase
  cases genR i with
  | ok g =>
    obtain ⟨resp, met⟩ := g
    cases met <;> simp [mapAtIdx_length]
  | error e => simp [mapAtIdx_length]

theorem compPromptStep_fst_length (prompts : List BenchmarkPrompt) (rdy : Bool)
    (genL genR : ℕ → GenOutcome) (k : ℕ)
    (st : List ComparisonResult × List BenchmarkResult) :
    (compPromptStep prompts rdy genL genR k st).1.length = st.1.length := by
  unfold compPromptStep
  cases prompts[k]? with
  | none => rfl
  | some p =>
    rw [compRemotePhase_fst_length, compLocalPhase_fst_length]

theorem comparisonRunState_fst_length (prompts : List BenchmarkPrompt)
    (rdy : Bool) (genL genR : ℕ → GenOutcome) (k : ℕ) :
    (comparisonRunState prompts rdy genL genR k).1.length = prompts.length := by
  induction k with
  | zero => simp [comparisonRunState, initialComparison]
  | succ k ih =>
    rw [comparisonRunState_succ, compPromptStep_fst_length]
    exact ih

theorem compLocalPhase_fst_ne (rdy : Bool) (genL : ℕ → GenOutcome)
    (p : BenchmarkPrompt) (i : ℕ) (cr : List ComparisonResult)
    (acc : List BenchmarkResult) (j : ℕ) (h : j ≠ i) :
    (compLocalPhase rdy genL p i cr acc).1[j]? = cr[j]? := by
  unfold compLocalPhase
  split
  · cases genL i with
    | ok g =>
      obtain ⟨resp, met⟩ := g
      cases met <;> simp [mapAtIdx_getElem?, h]
    | error e => simp [mapAtIdx_getElem?, h]
  · rfl

theorem compRemotePhase_fst_ne (genR : ℕ → GenOutcome)
    (p : BenchmarkPrompt) (i : ℕ) (cr : List ComparisonResult)
    (acc : List BenchmarkResult) (j : ℕ) (h : j ≠ i) :
    (compRemotePhase genR p i cr acc).1[j]? = cr[j]? := by
  unfold compRemotePhase
  cases genR i with
  | ok g =>
    obtain ⟨resp, met⟩ := g
    cases met <;> simp [mapAtIdx_getElem?, h]
  | error e => simp [mapAtIdx_getElem?, h]

theorem compPromptStep_fst_ne (prompts : List BenchmarkPrompt) (rdy : Bool)
    (genL genR : ℕ → GenOutcome) (k : ℕ)
    (st : List ComparisonResult × List BenchmarkResult) (j : ℕ) (h : j ≠ k) :
    (compPromptStep prompts rdy genL genR k st).1[j]? = st.1[j]? := by
  unfold compPromptStep
  cases prompts[k]? with
  | none => rfl
  | some p =>
    rw [compRemotePhase_fst_ne _ _ _ _ _ _ h, compLocalPhase_fst_ne _ _ _ _ _ _ _ h]

theorem comparisonRunState_fst_untouched (prompts : List BenchmarkPrompt)
    (rdy : Bool) (genL genR : ℕ → GenOutcome) :
    ∀ k j, k ≤ j →
      (comparisonRunState prompts rdy genL genR k).1[j]?
        = (initialComparison prompts)[j]? := by
  intro k
  induction k with
  | zero => intro j _; rfl
  | succ k ih =>
    intro j hj
    rw [comparisonRunState_succ, compPromptStep_fst_ne _ _ _ _ _ _ _ (by omega)]
    exact ih j (by omega)

theorem initialComparison_getElem? (prompts : List BenchmarkPrompt) (j : ℕ) :
    (initialComparison prompts)[j]?
      = (prompts[j]?).map (fun p =>
          ({ promptId := p.id, promptText := p.text,
             localMetrics := none, localResponse := none,
             remote := none, remoteResponse := none,
             localError := none, remoteError := none } : ComparisonResult)) := by
  simp [initialComparison, List.getElem?_map]

theorem suiteMidRun_preserves (mode : InferenceMode) (s : BenchState) :
    ∀ k, (suiteMidRun mode s k).results = s.results ∧
         (suiteMidRun mode s k).comparisonResults = s.comparisonResults := by
  have key : ∀ (l : List ℕ) (st : BenchState),
      ((l.foldl (fun st i => { st with currentPromptIndex := i }) st).results
          = st.results) ∧
      ((l.foldl (fun st i => { st with currentPromptIndex := i }) st).comparisonResults
          = st.comparisonResults) := by
    intro l
    induction l with
    | nil => intro st; exact ⟨rfl, rfl⟩
    | cons a t ih =>
      intro st
      rw [List.foldl_cons]
      exact ih _
  intro k
  exact key (List.range k) _

theorem compPromptStep_settles (genL genR : ℕ → GenOutcome) (k : ℕ)
    (st : List ComparisonResult × List BenchmarkResult) (p : BenchmarkPrompt)
    (hp : TEST_PROMPTS[k]? = some p)
    (hL : backendOutcome (genL k)) (hR : backendOutcome (genR k))
    (r0 : ComparisonResult) (h0 : st.1[k]? = some r0) :
    ∃ r, (compPromptStep TEST_PROMPTS true genL genR k st).1[k]? = some r ∧
      localCellSettled r ∧ remoteCellSettled r := by
  rcases st with ⟨cr, acc⟩
  dsimp only at h0
  rcases hL with ⟨eL, hgL⟩ | ⟨respL, mL, hgL⟩ <;>
    rcases hR with ⟨eR, hgR⟩ | ⟨respR, mR, hgR⟩ <;>
    · simp only [compPromptStep, hp, compLocalPhase, compRemotePhase, hgL, hgR,
        if_true]
      rw [mapAtIdx_twice_getElem_self, h0]
      exact ⟨_, rfl, by simp [localCellSettled], by simp [remoteCellSettled]⟩

theorem comparison_settled_entries (genL genR : ℕ → GenOutcome)
    (hall : ∀ i, i < 20 → backendOutcome (genL i) ∧ backendOutcome (genR i)) :
    ∀ k, k ≤ 20 → ∀ j, j < k →
      ∃ r, (comparisonRunState TEST_PROMPTS true genL genR k).1[j]? = some r ∧
        localCellSettled r ∧ remoteCellSettled r := by
  intro k
  induction k with
  | zero => intro _ j hj; omega
  | succ k ih =>
    intro hk1 j hj
    rw [comparisonRunState_succ]
    by_cases hjk : j = k
    · subst hjk
      have hjlen : j < TEST_PROMPTS.length := by
        have h20 : TEST_PROMPTS.length = 20 := rfl
        omega
      have hj20 : j < (comparisonRunState TEST_PROMPTS true genL genR j).1.length := by
        rw [comparisonRunState_fst_length]
        exact hjlen
      exact compPromptStep_settles genL genR j _ _ (List.getElem?_eq_getElem hjlen)
        (hall j (by omega)).1 (hall j (by omega)).2 _
        (List.getElem?_eq_getElem hj20)
    · rw [compPromptStep_fst_ne _ _ _ _ _ _ _ hjk]
      exact ih (by omega) j (by omega)

/-- C6 (amended): the two run modes differ in publication granularity.  The
comparison run publishes incrementally: the all-null matrix is published up
front and, as long as each call either throws or returns with metrics, after
the k-th prompt completes the published matrix still has all 20 rows, every
row before k settled on both sides (metrics or error recorded) and every row
from k on still pristine — the matrix fills in monotonically in corpus order.
The single-mode run does NOT publish incrementally: its loop body only
advances the progress index, so the published result collection (and the
comparison collection) are unchanged until the single append after the whole
corpus succeeds. -/
theorem run_publication_granularity (mode : InferenceMode)
    (genL genR : ℕ → GenOutcome) (s : BenchState)
    (hall : ∀ i, i < 20 → backendOutcome (genL i) ∧ backendOutcome (genR i)) :
    (∀ k, (suiteMidRun mode s k).results = s.results ∧
          (suiteMidRun mode s k).comparisonResults = s.comparisonResults) ∧
    (∀ k, k ≤ 20 →
      (comparisonRunState TEST_PROMPTS true genL genR k).1.length = 20 ∧
      (∀ j, j < k → ∃ r,
        (comparisonRunState TEST_PROMPTS true genL genR k).1[j]? = some r ∧
        localCellSettled r ∧ remoteCellSettled r) ∧
      (∀ j, k ≤ j →
        (comparisonRunState TEST_PROMPTS true genL genR k).1[j]?
          = (initialComparison TEST_PROMPTS)[j]?)) := by
  refine ⟨suiteMidRun_preserves mode s, fun k hk => ⟨?_, ?_, ?_⟩⟩
  · rw [comparisonRunState_fst_length]
    rfl
  · exact comparison_settled_entries genL genR hall k hk
  · exact fun j hj => comparisonRunState_fst_untouched TEST_PROMPTS true genL genR k j hj

/-- C6 counterexample: in a single-mode run with every call succeeding, the
observable result collection right after prompt 1 completes is still empty —
no entry for prompt 1 is published mid-run; the batch of 20 rows appears only
once the whole run ends. -/
theorem run_publication_counterexample :
    (suiteMidRun InferenceMode.localMode
        ⟨[], [], false, false, 0, InferenceMode.localMode⟩ 1).results.length = 0 ∧
    ¬ (suiteMidRun InferenceMode.localMode
        ⟨[], [], false, false, 0, InferenceMode.localMode⟩ 1).results.length = 1 ∧
    (runBenchmarkSuite InferenceMode.localMode
        (fun _ => Except.ok ⟨"ok", some ⟨0, 1, 0, 1⟩⟩)
        ⟨[], [], false, false, 0, InferenceMode.localMode⟩).results.length = 20 := by
  decide

/-- Witness for C6: with local always throwing and remote always succeeding,
after the first prompt the matrix still has 20 rows, row 0 is settled on both
sides, row 1 is pristine, and the mid-run suite state has published nothing. -/
theorem run_publication_granularity_witness :
    (suiteMidRun InferenceMode.localMode
        ⟨[], [], false, false, 0, InferenceMode.localMode⟩ 3).results = [] ∧
    (comparisonRunState TEST_PROMPTS true (fun _ => Except.error "down")
        (fun _ => Except.ok ⟨"Hi.", some ⟨0, 1, 0, 1⟩⟩) 1).1.length = 20 ∧
    (∃ r, (comparisonRunState TEST_PROMPTS true (fun _ => Except.error "down")
        (fun _ => Except.ok ⟨"Hi.", some ⟨0, 1, 0, 1⟩⟩) 1).1[0]? = some r ∧
      localCellSettled r ∧ remoteCellSettled r) ∧
    (comparisonRunState TEST_PROMPTS true (fun _ => Except.error "down")
        (fun _ => Except.ok ⟨"Hi.", some ⟨0, 1, 0, 1⟩⟩) 1).1[1]?
      = (initialComparison TEST_PROMPTS)[1]? := by
  have h := run_publication_granularity InferenceMode.localMode
    (fun _ => Except.error "down") (fun _ => Except.ok ⟨"Hi.", some ⟨0, 1, 0, 1⟩⟩)
    ⟨[], [], false, false, 0, InferenceMode.localMode⟩
    (fun i _ => ⟨Or.inl ⟨"down", rfl⟩, Or.inr ⟨"Hi.", ⟨0, 1, 0, 1⟩, rfl⟩⟩)
  obtain ⟨h1, h2⟩ := h
  have h2one := h2 1 (by omega)
  exact ⟨(h1 3).1, h2one.1, h2one.2.1 0 (by omega), h2one.2.2 1 (by omega)⟩

theorem comparison_c1_entries (genL genR : ℕ → GenOutcome)
    (hL : ∀ i, i < 20 → ∃ e, genL i = Except.error e)
    (hR : ∀ i, i < 20 → ∃ resp m, genR i = Except.ok ⟨resp, some m⟩ ∧ resp ≠ "") :
    ∀ k, k ≤ 20 → ∀ j, j < k →
      ∃ r, (comparisonRunState TEST_PROMPTS true genL genR k).1[j]? = some r ∧
        r.localError ≠ none ∧ r.localMetrics = none ∧ r.localResponse = none ∧
        r.remote ≠ none ∧ r.remoteResponse ≠ none := by
  intro k
  induction k with
  | zero => intro _ j hj; omega
  | succ k ih =>
    intro hk1 j hj
    rw [comparisonRunState_succ]
    by_cases hjk : j = k
    · subst hjk
      obtain ⟨eL, hgL⟩ := hL j (by omega)
      obtain ⟨resp, m, hgR, hne⟩ := hR j (by omega)
      have hjlen : j < TEST_PROMPTS.length := by
        have h20 : TEST_PROMPTS.length = 20 := rfl
        omega
      have hp := List.getElem?_eq_getElem hjlen
      have hu := comparisonRunState_fst_untouched TEST_PROMPTS true genL genR j j le_rfl
      rw [initialComparison_getElem?, hp] at hu
      simp only [compPromptStep, hp, compLocalPhase, compRemotePhase, hgL, hgR,
        if_true]
      rw [mapAtIdx_twice_getElem_self, hu]
      refine ⟨_, rfl, ?_, ?_, ?_, ?_, ?_⟩ <;> simp [strOrNull, hne]
    · rw [compPromptStep_fst_ne _ _ _ _ _ _ _ hjk]
      exact ih (by omega) j (by omega)

theorem comparison_c1_acc (genL genR : ℕ → GenOutcome)
    (hL : ∀ i, i < 20 → ∃ e, genL i = Except.error e)
    (hR : ∀ i, i < 20 → ∃ resp m, genR i = Except.ok ⟨resp, some m⟩ ∧ resp ≠ "") :
    ∀ k, k ≤ 20 →
      (comparisonRunState TEST_PROMPTS true genL genR k).2.length = k ∧
      ∀ b ∈ (comparisonRunState TEST_PROMPTS true genL genR k).2,
        b.mode = InferenceMode.remoteMode := by
  intro k
  induction k with
  | zero =>
    intro _
    refine ⟨rfl, ?_⟩
    intro b hb
    simp [comparisonRunState] at hb
  | succ k ih =>
    intro hk1
    obtain ⟨hlen, hmode⟩ := ih (by omega)
    obtain ⟨eL, hgL⟩ := hL k (by omega)
    obtain ⟨resp, m, hgR, hne⟩ := hR k (by omega)
    have hklen : k < TEST_PROMPTS.length := by
      have h20 : TEST_PROMPTS.length = 20 := rfl
      omega
    have hp := List.getElem?_eq_getElem hklen
    rw [comparisonRunState_succ]
    rcases hst : comparisonRunState TEST_PROMPTS true genL genR k with ⟨cr, acc⟩
    rw [hst] at hlen hmode
    simp only [compPromptStep, hp, compLocalPhase, compRemotePhase, hgL, hgR,
      if_true]
    constructor
    · simp [List.length_append, hlen]
    · intro b hb
      rcases List.mem_append.1 hb with hb | hb
      · exact hmode b hb
      · simp at hb
        subst hb
        rfl

/-- C1: a comparison run invoked with `isLocalReady = true` in which every
local call throws and every remote call succeeds (delivering metrics and a
non-empty response) yields a comparison collection of exactly 20 entries,
each with a non-null `localError`, null `local`/`localResponse`, and non-null
`remote`/`remoteResponse`; exactly 20 remote-mode rows and zero local-mode
rows are appended to the result collection — no prompt is skipped, the local
failures neither abort the run nor block the remote side. -/
theorem comparison_local_down_remote_up (genL genR : ℕ → GenOutcome)
    (s : BenchState)
    (hL : ∀ i, i < 20 → ∃ e, genL i = Except.error e)
    (hR : ∀ i, i < 20 → ∃ resp m, genR i = Except.ok ⟨resp, some m⟩ ∧ resp ≠ "") :
    (runComparisonBenchmark genL genR true s).comparisonResults.length = 20 ∧
    (∀ r ∈ (runComparisonBenchmark genL genR true s).comparisonResults,
      r.localError ≠ none ∧ r.localMetrics = none ∧ r.localResponse = none ∧
      r.remote ≠ none ∧ r.remoteResponse ≠ none) ∧
    ∃ appended,
      (runComparisonBenchmark genL genR true s).results = s.results ++ appended ∧
      appended.length = 20 ∧
      (∀ b ∈ appended, b.mode = InferenceMode.remoteMode) ∧
      (appended.filter
          (fun b => decide (b.mode = InferenceMode.localMode))).length = 0 := by
  have hcr : (runComparisonBenchmark genL genR true s).comparisonResults
      = (comparisonRunState TEST_PROMPTS true genL genR 20).1 := rfl
  have hres : (runComparisonBenchmark genL genR true s).results
      = s.results ++ (comparisonRunState TEST_PROMPTS true genL genR 20).2 := rfl
  have hacc := comparison_c1_acc genL genR hL hR 20 le_rfl
  refine ⟨?_, ?_,
    ⟨(comparisonRunState TEST_PROMPTS true genL genR 20).2, hres, hacc.1, hacc.2, ?_⟩⟩
  · rw [hcr, comparisonRunState_fst_length]
    rfl
  · intro r hr
    rw [hcr] at hr
    obtain ⟨j, hj⟩ := List.mem_iff_getElem?.1 hr
    have hjlen := (List.getElem?_eq_some.1 hj).1
    rw [comparisonRunState_fst_length] at hjlen
    have hj20 : j < 20 := by
      have h20 : TEST_PROMPTS.length = 20 := rfl
      omega
    obtain ⟨r', hr', hprops⟩ := comparison_c1_entries genL genR hL hR 20 le_rfl j hj20
    rw [hj] at hr'
    injection hr' with he
    rw [he]
    exact hprops
  · rw [List.length_eq_zero, List.filter_eq_nil_iff]
    intro b hb
    have hm := hacc.2 b hb
    simp [hm]

/-- C1 counterexample: with every local call throwing and every remote call
succeeding but resolving to the empty string, `remoteResponse || null` stores
null — the first comparison row has a non-null `remote` yet a null
`remoteResponse`, so a successful remote call alone does not guarantee a
non-null `remoteResponse`. -/
theorem comparison_local_down_counterexample :
    (runComparisonBenchmark (fun _ => Except.error "down")
        (fun _ => Except.ok ⟨"", some ⟨0, 1, 0, 0⟩⟩) true
        ⟨[], [], false, false, 0, InferenceMode.localMode⟩).comparisonResults[0]?
      = some ⟨"short_1", "What is the capital of France?", none, none,
          some ⟨0, 1, 0, 0⟩, none, some "down", none⟩ ∧
    ¬ (some ⟨"short_1", "What is the capital of France?", none, none,
          some ⟨0, 1, 0, 0⟩, none, some "down", none⟩ : Option ComparisonResult).any
        (fun r => r.remoteResponse.isSome) = true := by
  exact ⟨rfl, by simp⟩

/-- Witness for C1: concrete generators (local always throwing, remote always
answering) instantiate the run and satisfy the conclusion. -/
theorem comparison_local_down_remote_up_witness :
    (runComparisonBenchmark (fun _ => Except.error "Engine not initialized")
        (fun _ => Except.ok ⟨"Paris.", some ⟨50, 800, 12, 10⟩⟩) true
        ⟨[], [], false, false, 0, InferenceMode.localMode⟩).comparisonResults.length
      = 20 ∧
    (∀ r ∈ (runComparisonBenchmark (fun _ => Except.error "Engine not initialized")
        (fun _ => Except.ok ⟨"Paris.", some ⟨50, 800, 12, 10⟩⟩) true
        ⟨[], [], false, false, 0, InferenceMode.localMode⟩).comparisonResults,
      r.localError ≠ none ∧ r.localMetrics = none ∧ r.localResponse = none ∧
      r.remote ≠ none ∧ r.remoteResponse ≠ none) ∧
    ∃ appended,
      (runComparisonBenchmark (fun _ => Except.error "Engine not initialized")
          (fun _ => Except.ok ⟨"Paris.", some ⟨50, 800, 12, 10⟩⟩) true
          ⟨[], [], false, false, 0, InferenceMode.localMode⟩).results
        = [] ++ appended ∧
      appended.length = 20 ∧
      (∀ b ∈ appended, b.mode = InferenceMode.remoteMode) ∧
      (appended.filter
          (fun b => decide (b.mode = InferenceMode.localMode))).length = 0 := by
  exact comparison_local_down_remote_up
    (fun _ => Except.error "Engine not initialized")
    (fun _ => Except.ok ⟨"Paris.", some ⟨50, 800, 12, 10⟩⟩)
    ⟨[], [], false, false, 0, InferenceMode.localMode⟩
    (fun i _ => ⟨"Engine not initialized", rfl⟩)
    (fun i _ => ⟨"Paris.", ⟨50, 800, 12, 10⟩, rfl, by decide⟩)

end WebLLMChat
